import Mathlib

/-!
Shallow embedding of the mcp-analytics SDK core:
redaction utilities (`src/core/utils.ts`), the event delivery client
(`src/core/client.ts`), the free-invocation wrapper
(`src/analytics/register-analytics-tool.ts`) and the payment-gated wrapper
(`src/stripe/register-analytics-paid-tool.ts`).

JavaScript values are modelled by the inductive `JVal` (numbers as `Int`,
strings as `List Char`, no binary payloads); records are association lists in
insertion order.  Asynchronous platform calls (Stripe, fetch) are modelled by
explicit outcome parameters of type `Except`/`Option` supplied to the embedded
control flow.
-/

namespace MCPA

/-- A JavaScript value: `null`, booleans, numbers (integral model), strings
(as character lists, so `substring`/`length` are list operations), arrays and
plain objects (association lists in insertion order). -/
inductive JVal where
  | null
  | bool (b : Bool)
  | num (n : Int)
  | str (s : List Char)
  | arr (items : List JVal)
  | obj (fields : List (String × JVal))

/-- An object (`Record<string, any>`): fields in insertion order. -/
abbrev Obj := List (String × JVal)

/-- First-match field lookup, `o[key]` returning `undefined` as `none`. -/
def lookupField : List (String × JVal) → String → Option JVal
  | [], _ => none
  | (k, v) :: t, key => if k = key then some v else lookupField t key

/-- JS property assignment `o[key] = v`: replaces the value at an existing key
in place (insertion order kept), appends a fresh key at the end. -/
def setField : List (String × JVal) → String → JVal → List (String × JVal)
  | [], key, v => [(key, v)]
  | (k, w) :: t, key, v =>
      if k = key then (k, v) :: t else (k, w) :: setField t key v

/-- JS truthiness (`if (x)`): `null`/`false`/`0`/empty string are falsy. -/
def jsTruthy : JVal → Bool
  | .null => false
  | .bool b => b
  | .num n => decide (n ≠ 0)
  | .str s => !s.isEmpty
  | .arr _ => true
  | .obj _ => true

/-! ## Redaction utility (`src/core/utils.ts`) -/

/-- The fixed sensitive-term set of `sanitizeParameters`, in source order. -/
def sensitiveKeys : List String :=
  ["password", "token", "key", "secret", "apikey", "api_key",
   "auth", "authorization", "credential", "pass", "pwd"]

/-- The fixed redaction marker `'[REDACTED]'`. -/
def REDACTED : List Char := "[REDACTED]".toList

/-- The truncation marker suffix `'...[TRUNCATED]'`. -/
def TRUNC_MARK : List Char := "...[TRUNCATED]".toList

/-- `String.prototype.includes`: the needle occurs as a contiguous substring
of the haystack (checked position by position). -/
def listIncludes : List Char → List Char → Bool
  | [], needle => needle.isEmpty
  | c :: t, needle => needle.isPrefixOf (c :: t) || listIncludes t needle

/-- `key.toLowerCase()` on the character list of a key. -/
def lowerKey (k : String) : List Char := k.toList.map Char.toLower

/-- `sensitiveKeys.some(sensitive => lowerKey.includes(sensitive))` for a key:
some sensitive term is a (case-insensitive) substring of the key. -/
def isSensitiveKey (k : String) : Bool :=
  sensitiveKeys.any (fun s => listIncludes (lowerKey k) s.toList)

/-- The value rewrite one iteration of the `for (const key in sanitized)`
loop performs at key `k`: redact a sensitive key, then truncate any string
value longer than 1000 characters to its first 1000 characters plus the
marker. -/
def sanitizeValue (k : String) (v : JVal) : JVal :=
  let v1 := if isSensitiveKey k then JVal.str REDACTED else v
  match v1 with
  | JVal.str s =>
      if s.length > 1000 then JVal.str (s.take 1000 ++ TRUNC_MARK)
      else JVal.str s
  | w => w

/-- One loop iteration on an entry (the key itself is never rewritten). -/
def sanitizeEntry (e : String × JVal) : String × JVal :=
  (e.1, sanitizeValue e.1 e.2)

/-- `sanitizeParameters(params)` as the per-entry value map it performs on the
spread copy `{ ...params }` (the non-object guard of the source is vacuous
here: the argument is an object by type). -/
def sanitizeParameters (params : Obj) : Obj :=
  List.map sanitizeEntry params

/-! A small object store to express that `sanitizeParameters` works on an
independent copy and never mutates the caller's mapping: references are
indices into a list of objects. -/

/-- A heap of objects; a reference is an index. -/
abbrev Store := List Obj

/-- Dereference (missing references read as the empty object). -/
def readRef (st : Store) (r : Nat) : Obj := (st[r]?).getD []

/-- `sanitizeParameters` at store level: `const sanitized = { ...params }`
allocates a fresh object holding a copy of the entries, and the `for` loop
then rewrites the fields of that fresh object only. Returns the new store and
the reference to the sanitized copy. -/
def sanitizeParametersSt (st : Store) (r : Nat) : Store × Nat :=
  let o := readRef st r
  let st1 := st ++ [o]
  let rs := List.length st
  (List.set st1 rs (sanitizeParameters o), rs)

/-- `sanitizeGenericResult(result)`: strings over 2000 characters are
truncated; arrays are capped at 20 elements and re-wrapped with their original
length; objects are capped at 50 fields with a truncation marker (the value
model carries no binary payloads, so the `Uint8Array`/`Buffer` branch of the
source has no counterpart); scalars pass through. -/
def sanitizeGenericResult : JVal → JVal
  | .str s =>
      if s.length > 2000 then .str (s.take 2000 ++ TRUNC_MARK) else .str s
  | .num n => .num n
  | .bool b => .bool b
  | .null => .null
  | .arr items =>
      .obj [("_type", .str "array".toList),
            ("_originalLength", .num items.length),
            ("items",
             .arr ((items.take 20).attach.map
                    (fun x => sanitizeGenericResult x.1)))]
  | .obj fs =>
      let base := (fs.take 50).attach.map
        (fun p => (p.1.1, sanitizeGenericResult p.1.2))
      if fs.length > 50 then
        .obj (base ++ [("_truncated", .bool true),
                       ("_totalFields", .num fs.length)])
      else .obj base
termination_by v => sizeOf v
decreasing_by
  · have hm : x.1 ∈ items := List.take_subset 20 items x.2
    have := List.sizeOf_lt_of_mem hm
    simp only [JVal.arr.sizeOf_spec]
    omega
  · have hm : p.1 ∈ fs := List.take_subset 50 fs p.2
    have h1 := List.sizeOf_lt_of_mem hm
    have h2 : sizeOf p.1.2 < sizeOf p.1 := by
      obtain ⟨a, b⟩ := p.1
      simp only [Prod.mk.sizeOf_spec]
      omega
    simp only [JVal.obj.sizeOf_spec]
    omega

/-- `sanitizeContentItem(item)`: dispatch on the item's `type` field — `text`
content over 2000 characters is truncated with its original length retained,
`image` data is replaced by a binary-removed marker with size/mime metadata,
`resource` text over 1000 characters is truncated, and anything else falls
through to `sanitizeGenericResult`; non-object items pass through. -/
def sanitizeContentItem (item : JVal) : JVal :=
  match item with
  | .obj fs =>
      match lookupField fs "type" with
      | some (.str ty) =>
          if ty = "text".toList then
            match lookupField fs "text" with
            | some (.str s) =>
                if s.length > 2000 then
                  .obj (setField
                          (setField fs "text" (.str (s.take 2000 ++ TRUNC_MARK)))
                          "_originalLength" (.num s.length))
                else .obj fs
            | _ => .obj fs
          else if ty = "image".toList then
            match lookupField fs "data" with
            | some d =>
                if jsTruthy d then
                  let s1 := setField fs "data"
                    (.str "[BINARY_DATA_REMOVED]".toList)
                  let s2 := setField s1 "_dataSize"
                    (match d with
                     | .str s => .num s.length
                     | _ => .str "unknown".toList)
                  let s3 := setField s2 "_mimeType"
                    (match lookupField fs "mimeType" with
                     | some m => if jsTruthy m then m else .str "unknown".toList
                     | none => .str "unknown".toList)
                  .obj s3
                else .obj fs
            | none => .obj fs
          else if ty = "resource".toList then
            match lookupField fs "text" with
            | some (.str s) =>
                if s.length > 1000 then
                  .obj (setField
                          (setField fs "text" (.str (s.take 1000 ++ TRUNC_MARK)))
                          "_originalLength" (.num s.length))
                else .obj fs
            | _ => .obj fs
          else sanitizeGenericResult item
      | _ => sanitizeGenericResult item
  | .arr _ => sanitizeGenericResult item
  | v => v

/-- `sanitizeResult(result)`: falsy results pass through; an object with an
array-valued `content` field has each content item sanitized in place; any
other value goes to `sanitizeGenericResult` (the model is pure, so the
defensive `try`/`catch` of the source is unreachable). -/
def sanitizeResult (result : JVal) : JVal :=
  if !(jsTruthy result) then result
  else
    match result with
    | .obj fs =>
        match lookupField fs "content" with
        | some (.arr items) =>
            .obj (setField fs "content" (.arr (items.map sanitizeContentItem)))
        | _ => sanitizeGenericResult (.obj fs)
    | r => sanitizeGenericResult r

/-! ## Event delivery client (`src/core/client.ts`) -/

/-- MCP client version descriptor. -/
structure ClientVersion where
  name : String
  version : String
deriving DecidableEq, Repr

/-- A telemetry event (`MCPEvent` of `src/core/types.ts`), with the fields the
wrappers populate. `paymentDate` is modelled as the epoch-milliseconds value
`created * 1000` whose ISO rendering the source transmits. -/
structure MCPEvent where
  eventType : String
  serverName : String
  timestamp : Int
  serverVersion : Option String := none
  environment : Option String := none
  toolName : String
  parameters : Obj
  result : Option JVal := none
  duration : Int
  success : Bool
  errorType : Option String := none
  errorMessage : Option String := none
  sessionId : Option String := none
  requestId : Option String := none
  userId : Option String := none
  email : Option String := none
  username : Option String := none
  clientVersion : Option ClientVersion := none
  customerId : Option String := none
  paymentAmount : Option Int := none
  paymentCurrency : Option String := none
  paymentDate : Option Int := none
  paymentSessionId : Option String := none
  paymentType : Option String := none
  priceId : Option String := none
  paymentStatus : Option String := none
  subscriptionId : Option String := none

/-- Client configuration (`AnalyticsConfig`), restricted to the fields the
client reads. -/
structure AnalyticsConfig where
  apiKey : String
  batchSize : Option Nat := none
  flushInterval : Option Nat := none
  enabled : Bool := true

/-- The mutable state of an `AnalyticsClient`. -/
structure ClientState where
  apiKey : String
  batchSize : Nat
  eventQueue : List MCPEvent
  timerActive : Bool
  isDestroyed : Bool

/-- The `AnalyticsClient` constructor: batch size is `config.batchSize || 20`
capped at 25 (`0` is falsy in JS and falls back to the default), and the
periodic flush timer is installed unless `flushInterval` is exactly `0`. -/
def mkClient (config : AnalyticsConfig) : ClientState :=
  { apiKey := config.apiKey
    batchSize :=
      min (match config.batchSize with
           | some b => if b = 0 then 20 else b
           | none => 20) 25
    eventQueue := []
    timerActive := config.flushInterval ≠ some 0
    isDestroyed := false }

/-- The error cases of `APIError` raised by `sendEvents`. -/
inductive APIErr where
  | destroyed
  | noApiKey
  | emptyEvents
  | tooMany (n : Nat)
  | http (status : Nat) (msg : String)
  | network (msg : String)
deriving DecidableEq, Repr

/-- The ingestion endpoint's response body (fields the client returns). -/
structure IngestResponse where
  success : Bool
  processed : Nat
  skipped : Nat
deriving DecidableEq, Repr

/-- Outcome of the `fetch` POST to the ingestion endpoint. -/
inductive FetchOutcome where
  | ok (resp : IngestResponse)
  | httpError (status : Nat) (msg : String)
  | networkFail (msg : String)
deriving DecidableEq, Repr

/-- `sendEvents(events)`: guard chain (destroyed, missing API key, empty
batch, over-25 batch), then a single POST whose transport/HTTP failures are
wrapped in `APIError`. The first component is the batch actually handed to
`fetch` (`none` when a guard fired and no request was made). -/
def sendEvents (st : ClientState) (events : List MCPEvent)
    (fetchResult : FetchOutcome) :
    Option (List MCPEvent) × Except APIErr IngestResponse :=
  if st.isDestroyed then (none, .error .destroyed)
  else if st.apiKey = "" then (none, .error .noApiKey)
  else if events.length = 0 then (none, .error .emptyEvents)
  else if events.length > 25 then (none, .error (.tooMany events.length))
  else
    (some events,
     match fetchResult with
     | .ok r => .ok r
     | .httpError s m => .error (.http s m)
     | .networkFail m => .error (.network m))

/-- The synchronous effect of `flush()`: the destroyed/empty guard and the
`splice(0, batchSize)` removing the front batch. The subsequent `await
sendEvents` is asynchronous and its failure is caught with only a warning
log, so the send outcome never alters the queue — the removed batch is
discarded either way. Returns the new state and the batch claimed for
sending (`none` when the guard fired). -/
def flushStep (st : ClientState) : ClientState × Option (List MCPEvent) :=
  if st.isDestroyed || st.eventQueue.isEmpty then (st, none)
  else
    ({ st with eventQueue := st.eventQueue.drop st.batchSize },
     some (st.eventQueue.take st.batchSize))

/-- `queueEvent(event)`: no-op when destroyed; otherwise push, and once the
queue length reaches the batch size trigger a flush (whose splice runs
synchronously). -/
def queueEvent (st : ClientState) (ev : MCPEvent) :
    ClientState × Option (List MCPEvent) :=
  if st.isDestroyed then (st, none)
  else
    let st1 := { st with eventQueue := st.eventQueue ++ [ev] }
    if st1.eventQueue.length ≥ st1.batchSize then flushStep st1
    else (st1, none)

/-- `destroy()`: set the destroyed flag, clear the periodic timer, then call
`flush()` — in source order, so the final flush runs with `isDestroyed`
already set. -/
def destroy (st : ClientState) : ClientState × Option (List MCPEvent) :=
  let st1 := { st with isDestroyed := true, timerActive := false }
  flushStep st1

/-! ## Stripe entitlement model
(`src/stripe/register-analytics-paid-tool.ts`, lines 97–145) -/

/-- A Stripe checkout session, restricted to the fields the source reads. -/
structure CheckoutSession where
  id : String
  metadataToolName : Option String
  payment_status : String
  subscription : Option String
  url : Option (List Char)
  amount_total : Option Int
  currency : Option String
  created : Int
deriving DecidableEq, Repr

/-- One item of a Stripe subscription (its price id). -/
structure SubscriptionItem where
  priceId : String
deriving DecidableEq, Repr

/-- A Stripe subscription with its status and items. -/
structure StripeSubscription where
  id : String
  status : String
  items : List SubscriptionItem
deriving DecidableEq, Repr

/-- The payment platform's data for one customer: the checkout sessions
returned by `stripe.checkout.sessions.list({customer})` and the customer's
subscriptions (the `status: 'active'` list call is modelled as a filter). -/
structure StripeState where
  sessions : List CheckoutSession
  subscriptions : List StripeSubscription
deriving DecidableEq, Repr

/-- `getPaymentSessionData(toolName, customerId)`: the first checkout session
of the customer whose metadata names this tool and whose status is paid. -/
def getPaymentSessionData (toolName : String) (st : StripeState) :
    Option CheckoutSession :=
  st.sessions.find? (fun s =>
    s.metadataToolName == some toolName && s.payment_status == "paid")

/-- `isToolPaidFor(toolName, customerId)`: looks up a matching paid checkout
session; when that session references a subscription, additionally searches
the customer's active subscriptions for an item with the configured price id
and returns `true` on a hit; finally returns `!!paidSession`. -/
def isToolPaidFor (toolName priceId : String) (st : StripeState) : Bool :=
  let paidSession := getPaymentSessionData toolName st
  let subHit : Bool :=
    match paidSession with
    | some s =>
        if s.subscription.isSome then
          ((st.subscriptions.filter (fun sub => sub.status == "active")).find?
            (fun sub =>
              (sub.items.find? (fun it => it.priceId == priceId)).isSome)).isSome
        else false
    | none => false
  if subHit then true else paidSession.isSome

/-- The entitlement rule as the specification words it: a checkout session
with matching tool metadata and a paid status exists, OR an active
subscription of the customer contains an item whose price id equals the
tool's configured price id. (Spec-side definition, to be compared with
`isToolPaidFor`.) -/
def specEntitled (toolName priceId : String) (st : StripeState) : Bool :=
  st.sessions.any (fun s =>
    s.metadataToolName == some toolName && s.payment_status == "paid")
  || st.subscriptions.any (fun sub =>
      sub.status == "active" && sub.items.any (fun it => it.priceId == priceId))

/-! ## Shared wrapper pieces -/

/-- A JS runtime error as the wrappers observe it:
`error.constructor.name` and `error.message`. -/
structure Err where
  name : String
  message : String
deriving DecidableEq, Repr

/-- `Math.round` (half away from zero rounds up in JS: half toward `+∞`). -/
def jsRound (x : ℚ) : Int := ⌊x + 1 / 2⌋

/-- `Math.max(1, Math.round(endTime - startTime))`. -/
def durationOf (startT endT : ℚ) : Int := max 1 (jsRound (endT - startT))

/-- `{userId?, email?, username?}` from the caller-identity accessor. -/
structure UserInfo where
  userId : Option String := none
  email : Option String := none
  username : Option String := none
deriving DecidableEq, Repr

/-- The fields of the host framework's `extra` argument the wrappers read. -/
structure Extra where
  sessionId : Option String := none
  requestId : Option String := none
deriving DecidableEq, Repr

/-- Session-id resolution: the configured accessor first (its failure is
swallowed), then the `extra.sessionId` fallback. The accessor is modelled by
the outcome of calling it (`none` when not configured). -/
def resolveSessionId (acc : Option (Except Err (Option String)))
    (extra : Extra) : Option String :=
  let fromAccessor : Option String :=
    match acc with
    | some (.ok v) => v
    | some (.error _) => none
    | none => none
  match fromAccessor with
  | some s => some s
  | none => extra.sessionId

/-- User-info resolution: the configured accessor's outcome, an empty record
when it is absent or throws. -/
def resolveUserInfo (acc : Option (Except Err UserInfo)) : UserInfo :=
  match acc with
  | some (.ok u) => u
  | some (.error _) => {}
  | none => {}

/-- `JSON.stringify` for the value model (string escaping not modelled:
the serialized payloads carry plain url/reason/status strings). -/
def stringify : JVal → List Char
  | .null => "null".toList
  | .bool true => "true".toList
  | .bool false => "false".toList
  | .num n => (toString n).toList
  | .str s => '"' :: (s ++ ['"'])
  | .arr items =>
      '[' :: (List.intercalate [',']
                (items.attach.map (fun x => stringify x.1)) ++ [']'])
  | .obj fs =>
      Char.ofNat 123 ::
        (List.intercalate [',']
          (fs.attach.map (fun p =>
            '"' :: (p.1.1.toList ++ ['"', ':'] ++ stringify p.1.2)))
         ++ [Char.ofNat 125])
termination_by v => sizeOf v
decreasing_by
  · have hm := x.2
    have := List.sizeOf_lt_of_mem hm
    simp only [JVal.arr.sizeOf_spec]
    omega
  · have hm := p.2
    have h1 := List.sizeOf_lt_of_mem hm
    have h2 : sizeOf p.1.2 < sizeOf p.1 := by
      obtain ⟨a, b⟩ := p.1
      simp only [Prod.mk.sizeOf_spec]
      omega
    simp only [JVal.obj.sizeOf_spec]
    omega

/-! ## Free-invocation wrapper (`src/analytics/register-analytics-tool.ts`) -/

/-- The options of `registerAnalyticsTool` the wrapper reads. Accessors are
modelled by the outcome of calling them; `trackResults` keeps its
`boolean | undefined` shape so the `!== false` default is explicit. -/
structure FreeOptions where
  apiKey : Option String := none
  serverName : Option String := none
  serverVersion : Option String := none
  environment : Option String := none
  trackResults : Option Bool := none
  getUserInfo : Option (Except Err UserInfo) := none
  getSessionId : Option (Except Err (Option String)) := none

/-- Observable outcome of one invocation of a (wrapped or original) tool
callback: the events handed to `queueEvent`, the returned value or rethrown
error, and how many times the original callback ran. -/
structure WrapOut where
  events : List MCPEvent
  outcome : Except Err JVal
  cbCalls : Nat

/-- The `wrappedCallback` of `registerAnalyticsTool`: extract metadata
(isolated failures), sanitize parameters, run the original callback, then
queue exactly one `mcp.tool.completed` or `mcp.tool.failed` event (when
`isEnabled`) and return the result unchanged / rethrow the error unchanged.
The original callback's behaviour is the `cbOutcome` parameter; `startT`,
`endT`, `now` are the clock readings. -/
def wrappedCallback (o : FreeOptions) (toolName : String) (isEnabled : Bool)
    (clientVersion : Option ClientVersion) (args : Obj) (extra : Extra)
    (cbOutcome : Except Err JVal) (startT endT : ℚ) (now : Int) : WrapOut :=
  let sessionId := resolveSessionId o.getSessionId extra
  let requestId := extra.requestId
  let userInfo := resolveUserInfo o.getUserInfo
  let sanitizedParams := sanitizeParameters args
  match cbOutcome with
  | .ok result =>
      let events :=
        if isEnabled then
          let sanitizedResult : Option JVal :=
            if o.trackResults ≠ some false then some (sanitizeResult result)
            else none
          [{ eventType := "mcp.tool.completed"
             serverName := o.serverName.getD "MCP Server"
             timestamp := now
             serverVersion := o.serverVersion
             environment := o.environment
             toolName := toolName
             parameters := sanitizedParams
             result := sanitizedResult
             duration := durationOf startT endT
             success := true
             clientVersion := clientVersion
             sessionId := sessionId
             requestId := requestId
             userId := userInfo.userId
             email := userInfo.email
             username := userInfo.username }]
        else []
      ⟨events, .ok result, 1⟩
  | .error e =>
      let events :=
        if isEnabled then
          [{ eventType := "mcp.tool.failed"
             serverName := o.serverName.getD "MCP Server"
             timestamp := now
             serverVersion := o.serverVersion
             environment := o.environment
             toolName := toolName
             parameters := sanitizedParams
             duration := durationOf startT endT
             success := false
             errorType := some e.name
             errorMessage := some e.message
             clientVersion := clientVersion
             sessionId := sessionId
             requestId := requestId
             userId := userInfo.userId
             email := userInfo.email
             username := userInfo.username }]
        else []
      ⟨events, .error e, 1⟩

/-- What `registerAnalyticsTool` hands to `mcpServer.tool`: the original
callback as-is, or the wrapped one. -/
inductive RegisteredTool where
  | original
  | wrapped
deriving DecidableEq, Repr

/-- The registration decision of `registerAnalyticsTool`: without an API key
(absent or empty string is falsy) the original callback is registered
unwrapped; a client-constructor failure also falls back to the original;
otherwise the wrapped callback is registered. -/
def registerAnalyticsTool (o : FreeOptions) (ctorFails : Bool) :
    RegisteredTool :=
  match o.apiKey with
  | none => .original
  | some k => if k = "" then .original
              else if ctorFails then .original else .wrapped

/-- One invocation of whatever callback was registered: the original callback
directly (no events, its own outcome), or the wrapped callback (registered
only when the client was constructed, i.e. telemetry enabled). -/
def invokeRegistered (rt : RegisteredTool) (o : FreeOptions)
    (toolName : String) (clientVersion : Option ClientVersion) (args : Obj)
    (extra : Extra) (cbOutcome : Except Err JVal) (startT endT : ℚ)
    (now : Int) : WrapOut :=
  match rt with
  | .original => ⟨[], cbOutcome, 1⟩
  | .wrapped =>
      wrappedCallback o toolName true clientVersion args extra cbOutcome
        startT endT now

/-! ## Payment-gated wrapper (`src/stripe/register-analytics-paid-tool.ts`) -/

/-- The options of `registerAnalyticsPaidTool` its callback reads. -/
structure PaidOptions where
  environment : Option String := none
  trackResults : Option Bool := none
  paymentReason : String
  meterEvent : Option String := none
  getUserInfo : Option (Except Err UserInfo) := none
  getSessionId : Option (Except Err (Option String)) := none

/-- Outcomes of the awaited platform calls of one gated invocation, one field
per call site in the callback body. -/
structure PaidOracles where
  /-- `getCurrentCustomerID()` at the top of the `try` block. -/
  resolveCustomer : Except Err String
  /-- `isToolPaidFor(toolName, customerId)`. -/
  entitlement : Except Err Bool
  /-- `stripe.checkout.sessions.create` inside `createCheckoutSession`. -/
  createSession : Except Err CheckoutSession
  /-- `stripe.billing.meterEvents.create` inside `recordUsage`. -/
  recordUsageOutcome : Except Err Unit
  /-- `getPaymentSessionData(toolName, customerId)` before the callback. -/
  paymentSessionLookup : Except Err (Option CheckoutSession)
  /-- The defensive `getCurrentCustomerID()` inside the `catch` block. -/
  errorCustomerLookup : Except Err String

/-- The payment-platform calls the gate itself makes (the defensive customer
re-lookup inside the catch's telemetry block is not part of the gate and is
not recorded here). -/
inductive GatewayCall where
  | resolveCustomer
  | entitlementCheck
  | createCheckout
  | recordUsage
  | paymentSessionLookup
deriving DecidableEq, Repr

/-- Observable outcome of one gated invocation. -/
structure PaidRunOut where
  events : List MCPEvent
  outcome : Except Err JVal
  cbCalls : Nat
  gateCalls : List GatewayCall

/-- `createCheckoutSession(paymentType, customerId)`: on success a
`payment_required` tool result whose text serializes the payment type,
checkout url and payment reason; on failure a structured error tool result
with `isError` — both branches return a value, the function never throws. -/
def createCheckoutSession (paymentReason paymentType : String)
    (sessionOutcome : Except Err CheckoutSession) : Option JVal :=
  match sessionOutcome with
  | .ok session =>
      some (.obj
        [("content", .arr
          [.obj [("type", .str "text".toList),
                 ("text", .str (stringify (.obj
                   [("status", .str "payment_required".toList),
                    ("data", .obj
                      [("paymentType", .str paymentType.toList),
                       ("checkoutUrl",
                        match session.url with
                        | some u => .str u
                        | none => .null),
                       ("paymentReason", .str paymentReason.toList)])])))]])])
  | .error e =>
      some (.obj
        [("content", .arr
          [.obj [("type", .str "text".toList),
                 ("text", .str (stringify (.obj
                   [("status", .str "error".toList),
                    ("error", .str e.message.toList)])))]]),
         ("isError", .bool true)])

/-- The `catch` block of the gated callback (lines 367–414): when telemetry
is enabled, defensively re-resolve the customer id (its own failure is
swallowed) and queue one `mcp.tool.payment_failed` event; then rethrow. -/
def paidCatch (o : PaidOptions) (toolName priceId : String)
    (extractedServerName extractedServerVersion : String)
    (isAnalyticsEnabled : Bool) (clientVersion : Option ClientVersion)
    (sanitizedParams : Obj) (sessionId requestId : Option String)
    (userInfo : UserInfo) (g : PaidOracles) (startT endT : ℚ) (now : Int)
    (priorEvents : List MCPEvent) (priorCalls : List GatewayCall)
    (cbCalls : Nat) (e : Err) : PaidRunOut :=
  let paymentType : String :=
    if o.meterEvent.isSome then "usageBased" else "oneTimeSubscription"
  let events :=
    if isAnalyticsEnabled then
      let errorCustomerId : Option String :=
        match g.errorCustomerLookup with
        | .ok c => some c
        | .error _ => none
      priorEvents ++
        [{ eventType := "mcp.tool.payment_failed"
           serverName := extractedServerName
           timestamp := now
           serverVersion := some extractedServerVersion
           environment := o.environment
           toolName := toolName
           parameters := sanitizedParams
           duration := durationOf startT endT
           success := false
           errorType := some e.name
           errorMessage := some e.message
           clientVersion := clientVersion
           customerId := errorCustomerId
           paymentType := some paymentType
           priceId := some priceId
           sessionId := sessionId
           requestId := requestId
           userId := userInfo.userId
           email := userInfo.email
           username := userInfo.username }]
    else priorEvents
  ⟨events, .error e, cbCalls, priorCalls⟩

/-- The code of the gated callback from `if (paymentType === 'usageBased')`
(line 306) onward: optional usage metering (its failure reaches the catch),
best-effort payment-session lookup (its failure is swallowed), the original
callback, and on success one `mcp.tool.payment_completed` event. Reached
from the entitled branch, and formally also from the unentitled branch in
the (unreachable) case that `createCheckoutSession` returned `null`. -/
def paidProceed (o : PaidOptions) (toolName priceId : String)
    (extractedServerName extractedServerVersion : String)
    (isAnalyticsEnabled : Bool) (clientVersion : Option ClientVersion)
    (sanitizedParams : Obj) (sessionId requestId : Option String)
    (userInfo : UserInfo) (customerId : String) (g : PaidOracles)
    (cbOutcome : Except Err JVal) (startT endT : ℚ) (now : Int)
    (priorEvents : List MCPEvent) (priorCalls : List GatewayCall) :
    PaidRunOut :=
  let paymentType : String :=
    if o.meterEvent.isSome then "usageBased" else "oneTimeSubscription"
  let toCatch := paidCatch o toolName priceId extractedServerName
    extractedServerVersion isAnalyticsEnabled clientVersion sanitizedParams
    sessionId requestId userInfo g startT endT now priorEvents
  let meterFail : Option Err :=
    if o.meterEvent.isSome then
      match g.recordUsageOutcome with
      | .ok _ => none
      | .error e => some e
    else none
  let callsAfterMeter :=
    priorCalls ++ (if o.meterEvent.isSome then [GatewayCall.recordUsage] else [])
  match meterFail with
  | some e => toCatch callsAfterMeter 0 e
  | none =>
    let callsAfterLookup := callsAfterMeter ++ [GatewayCall.paymentSessionLookup]
    let paymentSession : Option CheckoutSession :=
      match g.paymentSessionLookup with
      | .ok s => s
      | .error _ => none
    match cbOutcome with
    | .error e => toCatch callsAfterLookup 1 e
    | .ok result =>
        let events :=
          if isAnalyticsEnabled then
            let sanitizedResult : Option JVal :=
              if o.trackResults ≠ some false then some (sanitizeResult result)
              else none
            priorEvents ++
              [{ eventType := "mcp.tool.payment_completed"
                 serverName := extractedServerName
                 timestamp := now
                 serverVersion := some extractedServerVersion
                 environment := o.environment
                 toolName := toolName
                 parameters := sanitizedParams
                 result := sanitizedResult
                 duration := durationOf startT endT
                 success := true
                 clientVersion := clientVersion
                 customerId := some customerId
                 paymentAmount := paymentSession.bind (·.amount_total)
                 paymentCurrency := paymentSession.bind (·.currency)
                 paymentDate := paymentSession.map (fun s => s.created * 1000)
                 paymentSessionId := paymentSession.map (·.id)
                 paymentType := some paymentType
                 priceId := some priceId
                 paymentStatus := paymentSession.map (·.payment_status)
                 subscriptionId := paymentSession.bind (·.subscription)
                 sessionId := sessionId
                 requestId := requestId
                 userId := userInfo.userId
                 email := userInfo.email
                 username := userInfo.username }]
          else priorEvents
        ⟨events, .ok result, 1, callsAfterLookup⟩

/-- The gated `callback` of `registerAnalyticsPaidTool` (lines 219–415):
metadata extraction, customer resolution, entitlement check, then either the
unentitled branch (one `mcp.tool.payment_required` event and a checkout
payload, the original callback never runs) or the entitled branch
(`paidProceed`); every throw after resolution lands in `paidCatch`. -/
def paidCallback (o : PaidOptions) (toolName priceId : String)
    (extractedServerName extractedServerVersion : String)
    (isAnalyticsEnabled : Bool) (clientVersion : Option ClientVersion)
    (args : Obj) (extra : Extra) (g : PaidOracles)
    (cbOutcome : Except Err JVal) (startT endT : ℚ) (now : Int) :
    PaidRunOut :=
  let sessionId := resolveSessionId o.getSessionId extra
  let requestId := extra.requestId
  let userInfo := resolveUserInfo o.getUserInfo
  let sanitizedParams := sanitizeParameters args
  let toCatch := paidCatch o toolName priceId extractedServerName
    extractedServerVersion isAnalyticsEnabled clientVersion sanitizedParams
    sessionId requestId userInfo g startT endT now
  let paymentType : String :=
    if o.meterEvent.isSome then "usageBased" else "oneTimeSubscription"
  match g.resolveCustomer with
  | .error e => toCatch [] [GatewayCall.resolveCustomer] 0 e
  | .ok customerId =>
    match g.entitlement with
    | .error e =>
        toCatch [] [GatewayCall.resolveCustomer, GatewayCall.entitlementCheck] 0 e
    | .ok paidForTool =>
      let callsAfterCheck :=
        [GatewayCall.resolveCustomer, GatewayCall.entitlementCheck]
      if !paidForTool then
        let reqEvents :=
          if isAnalyticsEnabled then
            [{ eventType := "mcp.tool.payment_required"
               serverName := extractedServerName
               timestamp := now
               serverVersion := some extractedServerVersion
               environment := o.environment
               toolName := toolName
               parameters := sanitizedParams
               duration := durationOf startT endT
               success := false
               clientVersion := clientVersion
               customerId := some customerId
               paymentType := some paymentType
               priceId := some priceId
               paymentStatus := some "required"
               sessionId := sessionId
               requestId := requestId
               userId := userInfo.userId
               email := userInfo.email
               username := userInfo.username }]
          else []
        let callsAfterCheckout := callsAfterCheck ++ [GatewayCall.createCheckout]
        match createCheckoutSession o.paymentReason paymentType g.createSession with
        | some checkoutResult =>
            ⟨reqEvents, .ok checkoutResult, 0, callsAfterCheckout⟩
        | none =>
            paidProceed o toolName priceId extractedServerName
              extractedServerVersion isAnalyticsEnabled clientVersion
              sanitizedParams sessionId requestId userInfo customerId g
              cbOutcome startT endT now reqEvents callsAfterCheckout
      else
        paidProceed o toolName priceId extractedServerName
          extractedServerVersion isAnalyticsEnabled clientVersion
          sanitizedParams sessionId requestId userInfo customerId g
          cbOutcome startT endT now [] callsAfterCheck

/-- Whether `registerAnalyticsPaidTool` enables telemetry
(`isAnalyticsEnabled`): an API key must be configured (not absent, not the
falsy empty string) and the client constructor must succeed. The gated
callback itself is registered unconditionally. -/
def paidRegistrationEnabled (apiKey : Option String) (ctorFails : Bool) :
    Bool :=
  match apiKey with
  | none => false
  | some k => if k = "" then false else !ctorFails

/-! ## Concrete instances used to evaluate the development -/

/-- A sample telemetry event (indexed to build distinct queue entries). -/
def evSample (i : Int) : MCPEvent :=
  { eventType := "mcp.tool.completed", serverName := "srv", timestamp := i,
    toolName := "add", parameters := [], duration := 1, success := true }

/-- A customer with an active subscription carrying the tool's price id but
no checkout session at all. -/
def c1State : StripeState :=
  { sessions := []
    subscriptions :=
      [{ id := "sub_1", status := "active", items := [⟨"price_1"⟩] }] }

/-- A live client holding one queued event. -/
def c4Client : ClientState :=
  { apiKey := "key_1", batchSize := 20, eventQueue := [evSample 0],
    timerActive := true, isDestroyed := false }

/-- A live client with batch size two and three queued events. -/
def c7Client : ClientState :=
  { apiKey := "k", batchSize := 2,
    eventQueue := [evSample 0, evSample 1, evSample 2],
    timerActive := true, isDestroyed := false }

/-- A live client with an API key and an empty queue. -/
def c8Client : ClientState :=
  { apiKey := "k", batchSize := 20, eventQueue := [],
    timerActive := true, isDestroyed := false }

/-- An options record with no API key configured (all defaults). -/
def noKeyOpts : FreeOptions := {}

/-- A parameter mapping holding one sensitive key. -/
def c9Params : Obj := [("api_key", JVal.str ['s', 'k'])]

/-- A mapping with no sensitive key whose only value is a 1500-character
string: a truncation-only case for idempotence. -/
def c9LongParams : Obj := [("text", JVal.str (List.replicate 1500 'a'))]

/-- A one-object store. -/
def c9Store : Store := [[("a", JVal.null)]]

/-- Paid-tool options with only the mandatory payment reason. -/
def paidOptsA : PaidOptions := { paymentReason := "premium access" }

/-- A paid checkout session of the sample tool. -/
def sessA : CheckoutSession :=
  { id := "cs_1", metadataToolName := some "add", payment_status := "paid",
    subscription := none, url := some "https://pay.example".toList,
    amount_total := some 2999, currency := some "usd", created := 1 }

/-- Platform-call outcomes for an unentitled customer whose checkout
creation succeeds. -/
def oracleUnentitled : PaidOracles :=
  { resolveCustomer := .ok "cus_1", entitlement := .ok false,
    createSession := .ok sessA, recordUsageOutcome := .ok (),
    paymentSessionLookup := .ok none, errorCustomerLookup := .ok "cus_1" }

end MCPA

namespace MCPA

/-! ## Theorems -/

/-- Helper: `listIncludes` decides substring containment. -/
theorem listIncludes_iff (hay needle : List Char) :
    listIncludes hay needle = true ↔ needle <:+: hay := by
  induction hay with
  | nil => simp [listIncludes, List.isEmpty_iff, List.infix_nil]
  | cons c t ih =>
      simp [listIncludes, List.infix_cons_iff, List.isPrefixOf_iff_prefix, ih]

/-- Helper: a key some sensitive term is a substring of (after lowering) is
recognised by `isSensitiveKey`. -/
theorem isSensitiveKey_of_substring {k : String}
    (h : ∃ t ∈ sensitiveKeys, t.toList <:+: lowerKey k) :
    isSensitiveKey k = true := by
  simpa [isSensitiveKey, List.any_eq_true, listIncludes_iff] using h

/-- C1 counterexample: a customer whose only payment-platform datum is an
active subscription containing the tool's price id (no checkout session) is
reported NOT paid by `isToolPaidFor`, while the claimed entitlement rule
reports paid — the two sides of the claimed equivalence differ. -/
theorem c1_claim_false_at_subscription_only :
    isToolPaidFor "tool_a" "price_1" c1State = false ∧
    specEntitled "tool_a" "price_1" c1State = true := by
  constructor <;> rfl

/-- C1 (amended): the entitlement check returns paid exactly when a checkout
session whose metadata names this tool has a paid status; the active
subscription lookup runs only under such a session and never changes the
outcome, so a customer with only a matching active subscription is not
entitled. -/
theorem isToolPaidFor_eq_paid_session (toolName priceId : String)
    (st : StripeState) :
    isToolPaidFor toolName priceId st =
      (getPaymentSessionData toolName st).isSome := by
  unfold isToolPaidFor
  cases h : getPaymentSessionData toolName st with
  | none => simp [h]
  | some s => simp [h]

/-- C4: `destroy()` on a live client with a non-empty queue sets the
destroyed flag first and only then calls `flush()`, whose destroyed-guard
fires — so no final send is attempted and the queued event is left behind,
contrary to the claimed (and doc-commented) final flush of the remainder. -/
theorem destroy_skips_final_flush :
    (destroy c4Client).2 = none ∧
    (destroy c4Client).1.eventQueue = [evSample 0] ∧
    (destroy c4Client).1.isDestroyed = true ∧
    (destroy c4Client).1.timerActive = false ∧
    destroy (destroy c4Client).1 = destroy c4Client := by
  exact ⟨rfl, rfl, rfl, rfl, rfl⟩

/-- C7: on a live client, a flush removes exactly
`min(queueLength, batchSize)` events from the front of the queue (FIFO
within the batch: the batch is the take, the remainder the drop, and they
re-concatenate to the original queue) and claims exactly that batch for one
send — the send outcome is caught and never touches the queue, so after a
failed send the queue equals the original minus the removed front. -/
theorem flushStep_removes_front_batch (st : ClientState)
    (h : st.isDestroyed = false) :
    (flushStep st).1.eventQueue = st.eventQueue.drop st.batchSize
  ∧ (flushStep st).2 = (if st.eventQueue.isEmpty then none
      else some (st.eventQueue.take st.batchSize))
  ∧ (st.eventQueue.take st.batchSize).length
      = min st.batchSize st.eventQueue.length
  ∧ st.eventQueue.take st.batchSize ++ st.eventQueue.drop st.batchSize
      = st.eventQueue := by
  by_cases hq : st.eventQueue.isEmpty
  · have hnil : st.eventQueue = [] := List.isEmpty_iff.mp hq
    refine ⟨?_, ?_, ?_, ?_⟩ <;> simp [flushStep, h, hq, hnil]
  · refine ⟨?_, ?_, ?_, ?_⟩ <;>
      simp [flushStep, h, hq, List.length_take, List.take_append_drop]

/-- C7 witness: flushing a live client with three queued events and batch
size two removes the first two, leaves the third, and claims the first two
for the single send. -/
theorem flushStep_removes_front_batch_witness :
    c7Client.isDestroyed = false
  ∧ ((flushStep c7Client).1.eventQueue
      = c7Client.eventQueue.drop c7Client.batchSize
    ∧ (flushStep c7Client).2
      = (if c7Client.eventQueue.isEmpty then none
         else some (c7Client.eventQueue.take c7Client.batchSize))
    ∧ (c7Client.eventQueue.take c7Client.batchSize).length
      = min c7Client.batchSize c7Client.eventQueue.length
    ∧ c7Client.eventQueue.take c7Client.batchSize
        ++ c7Client.eventQueue.drop c7Client.batchSize
      = c7Client.eventQueue) :=
  ⟨rfl, flushStep_removes_front_batch c7Client rfl⟩

/-- C8: on a live client, `sendEvents` fails with the configuration error
when no API key is set; with a key set it fails with a size error exactly
when the batch is empty or exceeds 25; and whenever a request is actually
made, the transmitted batch has between 1 and 25 events. -/
theorem sendEvents_size_guard (st : ClientState) (events : List MCPEvent)
    (f : FetchOutcome) (h : st.isDestroyed = false) :
    (st.apiKey = "" →
      (sendEvents st events f).2 = .error .noApiKey
      ∧ (sendEvents st events f).1 = none)
  ∧ (st.apiKey ≠ "" →
      (((sendEvents st events f).2 = .error .emptyEvents
        ∨ (sendEvents st events f).2 = .error (.tooMany events.length))
       ↔ (events.length = 0 ∨ events.length > 25)))
  ∧ ((sendEvents st events f).1 ≠ none →
      1 ≤ events.length ∧ events.length ≤ 25) := by
  refine ⟨?_, ?_, ?_⟩
  · intro hk
    simp [sendEvents, h, hk]
  · intro hk
    by_cases h0 : events.length = 0
    · simp [sendEvents, h, hk, h0]
    · by_cases h25 : events.length > 25
      · simp [sendEvents, h, hk, h0, h25]
      · cases f <;> simp [sendEvents, h, hk, h0, h25]
  · intro hne
    by_cases hk : st.apiKey = ""
    · simp [sendEvents, h, hk] at hne
    · by_cases h0 : events.length = 0
      · simp [sendEvents, h, hk, h0] at hne
      · by_cases h25 : events.length > 25
        · simp [sendEvents, h, hk, h0, h25] at hne
        · omega

/-- C8 witness: a live client with a key, a singleton batch and a successful
transport satisfies all three conjuncts. -/
theorem sendEvents_size_guard_witness :
    c8Client.isDestroyed = false
  ∧ ((c8Client.apiKey = "" →
        (sendEvents c8Client [evSample 0] (.ok ⟨true, 1, 0⟩)).2
          = .error .noApiKey
        ∧ (sendEvents c8Client [evSample 0] (.ok ⟨true, 1, 0⟩)).1 = none)
    ∧ (c8Client.apiKey ≠ "" →
        (((sendEvents c8Client [evSample 0] (.ok ⟨true, 1, 0⟩)).2
            = .error .emptyEvents
          ∨ (sendEvents c8Client [evSample 0] (.ok ⟨true, 1, 0⟩)).2
            = .error (.tooMany ([evSample 0] : List MCPEvent).length))
         ↔ (([evSample 0] : List MCPEvent).length = 0
            ∨ ([evSample 0] : List MCPEvent).length > 25)))
    ∧ ((sendEvents c8Client [evSample 0] (.ok ⟨true, 1, 0⟩)).1 ≠ none →
        1 ≤ ([evSample 0] : List MCPEvent).length
        ∧ ([evSample 0] : List MCPEvent).length ≤ 25)) :=
  ⟨rfl, sendEvents_size_guard c8Client [evSample 0] (.ok ⟨true, 1, 0⟩) rfl⟩

/-- C6: when no API key is configured, `registerAnalyticsTool` registers the
original callback itself, so every invocation observes exactly the original
callback's outcome (result or thrown error), the callback runs once, and
zero events are queued. -/
theorem register_no_apiKey_transparent (o : FreeOptions) (cf : Bool)
    (toolName : String) (cv : Option ClientVersion) (args : Obj)
    (extra : Extra) (cbOutcome : Except Err JVal) (startT endT : ℚ)
    (now : Int) (h : o.apiKey = none) :
    registerAnalyticsTool o cf = .original
  ∧ (invokeRegistered (registerAnalyticsTool o cf) o toolName cv args extra
      cbOutcome startT endT now).events = []
  ∧ (invokeRegistered (registerAnalyticsTool o cf) o toolName cv args extra
      cbOutcome startT endT now).outcome = cbOutcome
  ∧ (invokeRegistered (registerAnalyticsTool o cf) o toolName cv args extra
      cbOutcome startT endT now).cbCalls = 1 := by
  have hr : registerAnalyticsTool o cf = .original := by
    simp [registerAnalyticsTool, h]
  refine ⟨hr, ?_, ?_, ?_⟩ <;> rw [hr] <;> rfl

/-- C6 witness: with the default (key-less) options, a registered tool is
the original callback and an invocation whose callback returns `null` is
observed unchanged with no events. -/
theorem register_no_apiKey_transparent_witness :
    noKeyOpts.apiKey = none
  ∧ (registerAnalyticsTool noKeyOpts false = .original
  ∧ (invokeRegistered (registerAnalyticsTool noKeyOpts false) noKeyOpts "add"
      none [] {} (.ok .null) 0 5 0).events = []
  ∧ (invokeRegistered (registerAnalyticsTool noKeyOpts false) noKeyOpts "add"
      none [] {} (.ok .null) 0 5 0).outcome = .ok .null
  ∧ (invokeRegistered (registerAnalyticsTool noKeyOpts false) noKeyOpts "add"
      none [] {} (.ok .null) 0 5 0).cbCalls = 1) :=
  ⟨rfl, register_no_apiKey_transparent noKeyOpts false "add" none [] {}
    (.ok .null) 0 5 0 rfl⟩

/-- Helper: the redaction marker is short enough to escape truncation. -/
theorem redacted_short : ¬ (1000 < REDACTED.length) := by decide

/-- Helper: one loop iteration of `sanitizeParameters` is idempotent on the
value at a key, including for strings it truncates (the truncated string's
first 1000 characters are unchanged, so re-truncation reproduces it). -/
theorem sanitizeValue_idem (k : String) (v : JVal) :
    sanitizeValue k (sanitizeValue k v) = sanitizeValue k v := by
  by_cases hs : isSensitiveKey k
  · simp [sanitizeValue, hs, redacted_short]
  · cases v with
    | str s =>
        by_cases hl : s.length > 1000
        · have htake : (s.take 1000).length = 1000 := by
            rw [List.length_take]; omega
          have hTM : TRUNC_MARK.length = 14 := by decide
          have hlen : (s.take 1000 ++ TRUNC_MARK).length = 1014 := by
            rw [List.length_append, htake, hTM]
          have hgt : (s.take 1000 ++ TRUNC_MARK).length > 1000 := by
            rw [hlen]; omega
          have hsplit : (s.take 1000 ++ TRUNC_MARK).take 1000 = s.take 1000 := by
            simp [List.take_append_eq_append_take, htake, List.take_take]
          simp [sanitizeValue, hs, hl, hgt, hsplit]
        · simp [sanitizeValue, hs, hl]
    | null => simp [sanitizeValue, hs]
    | bool b => simp [sanitizeValue, hs]
    | num n => simp [sanitizeValue, hs]
    | arr l => simp [sanitizeValue, hs]
    | obj fs => simp [sanitizeValue, hs]

/-- Helper: the loop iteration is idempotent on whole entries. -/
theorem sanitizeEntry_idem (e : String × JVal) :
    sanitizeEntry (sanitizeEntry e) = sanitizeEntry e := by
  obtain ⟨k, v⟩ := e
  simp [sanitizeEntry, sanitizeValue_idem]

/-- Helper: a sensitive key's value is rewritten to the marker. -/
theorem sanitizeValue_sensitive {k : String} (hs : isSensitiveKey k = true)
    (v : JVal) : sanitizeValue k v = .str REDACTED := by
  simp [sanitizeValue, hs, redacted_short]

/-- Helper: after sanitization, every key present in the mapping that
matches a sensitive term reads back as the marker. -/
theorem lookup_sanitized_sensitive (o : Obj) (k : String) (v : JVal)
    (hs : isSensitiveKey k = true) (hv : lookupField o k = some v) :
    lookupField (sanitizeParameters o) k = some (.str REDACTED) := by
  induction o with
  | nil => simp [lookupField] at hv
  | cons e t ih =>
      obtain ⟨k', v'⟩ := e
      by_cases hk : k' = k
      · subst hk
        simp [sanitizeParameters, lookupField, sanitizeEntry,
              sanitizeValue_sensitive hs]
      · simp [lookupField, hk] at hv
        simpa [sanitizeParameters, lookupField, sanitizeEntry, hk]
          using ih hv

/-- C9: `sanitizeParameters` is idempotent on EVERY mapping (the mapping
`p` carries no hypotheses, so truncation-only mappings without any
sensitive key are included); every key containing a sensitive term
(case-insensitive substring of the fixed set) whose value is present reads
back as the fixed redaction marker; and at store level the sanitized copy
is a fresh object — the caller's original mapping is untouched at its
reference. -/
theorem sanitizeParameters_props (p o : Obj) (k : String) (v : JVal)
    (st : Store) (r : Nat)
    (hk : ∃ t ∈ sensitiveKeys, t.toList <:+: lowerKey k)
    (hv : lookupField o k = some v) (hr : r < st.length) :
    sanitizeParameters (sanitizeParameters p) = sanitizeParameters p
  ∧ lookupField (sanitizeParameters o) k = some (.str REDACTED)
  ∧ readRef (sanitizeParametersSt st r).1 r = readRef st r
  ∧ (sanitizeParametersSt st r).2 ≠ r := by
  refine ⟨?_, ?_, ?_, ?_⟩
  · simp only [sanitizeParameters, List.map_map]
    exact List.map_congr_left (fun e _ => sanitizeEntry_idem e)
  · exact lookup_sanitized_sensitive o k v (isSensitiveKey_of_substring hk) hv
  · simp only [sanitizeParametersSt, readRef]
    rw [List.getElem?_set_ne (by omega : st.length ≠ r),
        List.getElem?_append_left hr]
  · simp only [sanitizeParametersSt]
    omega

/-- C9 witness: idempotence is instantiated at a sensitive-key-free mapping
whose only value is a 1500-character string (a truncation-only case);
redaction at a mapping with key `api_key` (matched by the sensitive term
`api_key`); non-mutation on a concrete one-object store. -/
theorem sanitizeParameters_props_witness :
    (∃ t ∈ sensitiveKeys, t.toList <:+: lowerKey "api_key")
  ∧ lookupField c9Params "api_key" = some (JVal.str ['s', 'k'])
  ∧ 0 < c9Store.length
  ∧ (sanitizeParameters (sanitizeParameters c9LongParams)
      = sanitizeParameters c9LongParams
    ∧ lookupField (sanitizeParameters c9Params) "api_key"
      = some (.str REDACTED)
    ∧ readRef (sanitizeParametersSt c9Store 0).1 0 = readRef c9Store 0
    ∧ (sanitizeParametersSt c9Store 0).2 ≠ 0) :=
  ⟨⟨"api_key", by decide, by decide⟩, rfl, by decide,
   sanitizeParameters_props c9LongParams c9Params "api_key"
     (JVal.str ['s', 'k']) c9Store 0 ⟨"api_key", by decide, by decide⟩ rfl
     (by decide)⟩

/-- C5: with telemetry enabled, a completed free invocation queues exactly
one `mcp.tool.completed` event — `success=true`, sanitized parameters,
duration `max(1, round(end-start))` (an integer at least 1), and the
sanitized result exactly when result tracking is enabled — and returns the
original result; a failed invocation queues exactly one `mcp.tool.failed`
event — `success=false`, the error's constructor name and message, no
result field — and rethrows the original error. -/
theorem free_wrapper_one_event_per_outcome (o : FreeOptions)
    (toolName : String) (cv : Option ClientVersion) (args : Obj)
    (extra : Extra) (r : JVal) (e : Err) (startT endT : ℚ) (now : Int) :
    (∃ ev,
      (wrappedCallback o toolName true cv args extra (.ok r) startT endT
        now).events = [ev]
      ∧ ev.eventType = "mcp.tool.completed"
      ∧ ev.success = true
      ∧ ev.parameters = sanitizeParameters args
      ∧ ev.duration = durationOf startT endT
      ∧ 1 ≤ ev.duration
      ∧ ev.result = (if o.trackResults ≠ some false
                     then some (sanitizeResult r) else none)
      ∧ ev.errorType = none
      ∧ (wrappedCallback o toolName true cv args extra (.ok r) startT endT
          now).outcome = .ok r)
  ∧ (∃ ev,
      (wrappedCallback o toolName true cv args extra (.error e) startT endT
        now).events = [ev]
      ∧ ev.eventType = "mcp.tool.failed"
      ∧ ev.success = false
      ∧ ev.parameters = sanitizeParameters args
      ∧ ev.duration = durationOf startT endT
      ∧ 1 ≤ ev.duration
      ∧ ev.errorType = some e.name
      ∧ ev.errorMessage = some e.message
      ∧ ev.result = none
      ∧ (wrappedCallback o toolName true cv args extra (.error e) startT
          endT now).outcome = .error e) := by
  constructor
  · exact ⟨_, rfl, rfl, rfl, rfl, rfl, le_max_left 1 _, rfl, rfl, rfl⟩
  · exact ⟨_, rfl, rfl, rfl, rfl, rfl, le_max_left 1 _, rfl, rfl, rfl, rfl⟩

/-- Helper: the catch block queues one more event when telemetry is enabled
and none otherwise. -/
theorem paidCatch_len (o : PaidOptions) (tn pid sn sv : String)
    (enabled : Bool) (cv : Option ClientVersion) (sp : Obj)
    (sid rid : Option String) (ui : UserInfo) (g : PaidOracles)
    (ts te : ℚ) (n : Int) (pes : List MCPEvent) (pcs : List GatewayCall)
    (cc : Nat) (err : Err) :
    (paidCatch o tn pid sn sv enabled cv sp sid rid ui g ts te n pes pcs cc
      err).events.length = pes.length + (if enabled then 1 else 0) := by
  cases enabled <;> simp [paidCatch]

/-- Helper: the catch block rethrows the original error and leaves the
callback count and gate trace as supplied, for either telemetry mode. -/
theorem paidCatch_shape (o : PaidOptions) (tn pid sn sv : String)
    (enabled : Bool) (cv : Option ClientVersion) (sp : Obj)
    (sid rid : Option String) (ui : UserInfo) (g : PaidOracles)
    (ts te : ℚ) (n : Int) (pes : List MCPEvent) (pcs : List GatewayCall)
    (cc : Nat) (err : Err) :
    (paidCatch o tn pid sn sv enabled cv sp sid rid ui g ts te n pes pcs cc
      err).outcome = .error err
  ∧ (paidCatch o tn pid sn sv enabled cv sp sid rid ui g ts te n pes pcs cc
      err).cbCalls = cc
  ∧ (paidCatch o tn pid sn sv enabled cv sp sid rid ui g ts te n pes pcs cc
      err).gateCalls = pcs := by
  refine ⟨?_, ?_, ?_⟩ <;> simp [paidCatch]

/-- Helper: with telemetry disabled, the catch block queues nothing. -/
theorem paidCatch_disabled (o : PaidOptions) (tn pid sn sv : String)
    (cv : Option ClientVersion) (sp : Obj) (sid rid : Option String)
    (ui : UserInfo) (g : PaidOracles) (ts te : ℚ) (n : Int)
    (pes : List MCPEvent) (pcs : List GatewayCall) (cc : Nat) (err : Err) :
    (paidCatch o tn pid sn sv false cv sp sid rid ui g ts te n pes pcs cc
      err).events = pes := by
  simp [paidCatch]

/-- Helper: the post-gate code queues exactly one more event when telemetry
is enabled and none otherwise, on every path. -/
theorem paidProceed_len (o : PaidOptions) (tn pid sn sv : String)
    (enabled : Bool) (cv : Option ClientVersion) (sp : Obj)
    (sid rid : Option String) (ui : UserInfo) (cid : String)
    (g : PaidOracles) (cb : Except Err JVal) (ts te : ℚ) (n : Int)
    (pes : List MCPEvent) (pcs : List GatewayCall) :
    (paidProceed o tn pid sn sv enabled cv sp sid rid ui cid g cb ts te n
      pes pcs).events.length = pes.length + (if enabled then 1 else 0) := by
  unfold paidProceed
  cases hm : o.meterEvent with
  | none =>
      cases cb with
      | error err => simp [hm, paidCatch_len]
      | ok r => cases enabled <;> simp [hm]
  | some m =>
      cases hr : g.recordUsageOutcome with
      | error err => simp [hm, hr, paidCatch_len]
      | ok u =>
          cases cb with
          | error err => simp [hm, hr, paidCatch_len]
          | ok r => cases enabled <;> simp [hm, hr]

/-- Helper: the post-gate code's outcome, callback count and gate trace do
not depend on the telemetry mode, and with telemetry disabled (and nothing
queued before) it queues nothing. -/
theorem paidProceed_indep (o : PaidOptions) (tn pid sn sv : String)
    (cv : Option ClientVersion) (sp : Obj) (sid rid : Option String)
    (ui : UserInfo) (cid : String) (g : PaidOracles) (cb : Except Err JVal)
    (ts te : ℚ) (n : Int) (pcs : List GatewayCall) :
    (paidProceed o tn pid sn sv false cv sp sid rid ui cid g cb ts te n []
      pcs).outcome
      = (paidProceed o tn pid sn sv true cv sp sid rid ui cid g cb ts te n
          [] pcs).outcome
  ∧ (paidProceed o tn pid sn sv false cv sp sid rid ui cid g cb ts te n []
      pcs).cbCalls
      = (paidProceed o tn pid sn sv true cv sp sid rid ui cid g cb ts te n
          [] pcs).cbCalls
  ∧ (paidProceed o tn pid sn sv false cv sp sid rid ui cid g cb ts te n []
      pcs).gateCalls
      = (paidProceed o tn pid sn sv true cv sp sid rid ui cid g cb ts te n
          [] pcs).gateCalls
  ∧ (paidProceed o tn pid sn sv false cv sp sid rid ui cid g cb ts te n []
      pcs).events = [] := by
  unfold paidProceed
  cases hm : o.meterEvent with
  | none =>
      cases cb with
      | error err => simp [hm, paidCatch_shape, paidCatch_disabled]
      | ok r => simp [hm]
  | some m =>
      cases hr : g.recordUsageOutcome with
      | error err => simp [hm, hr, paidCatch_shape, paidCatch_disabled]
      | ok u =>
          cases cb with
          | error err => simp [hm, hr, paidCatch_shape, paidCatch_disabled]
          | ok r => simp [hm, hr]

/-- C2: for an unentitled customer (resolution succeeded, entitlement check
returned not-paid), the original callback is never invoked; the invocation
returns (does not throw) the checkout payload — on session-creation success
a `payment_required` text payload carrying the checkout url and payment
reason, on session-creation failure a structured error payload flagged
`isError`. -/
theorem paid_unentitled_no_callback (o : PaidOptions)
    (tn pid sn sv : String) (enabled : Bool) (cv : Option ClientVersion)
    (args : Obj) (extra : Extra) (g : PaidOracles) (cb : Except Err JVal)
    (ts te : ℚ) (n : Int) (cid : String)
    (h1 : g.resolveCustomer = .ok cid) (h2 : g.entitlement = .ok false) :
    (paidCallback o tn pid sn sv enabled cv args extra g cb ts te
      n).cbCalls = 0
  ∧ (paidCallback o tn pid sn sv enabled cv args extra g cb ts te
      n).outcome = .ok (match g.createSession with
      | .ok session => JVal.obj
          [("content", .arr
            [.obj [("type", .str "text".toList),
                   ("text", .str (stringify (.obj
                     [("status", .str "payment_required".toList),
                      ("data", .obj
                        [("paymentType",
                          .str (if o.meterEvent.isSome then "usageBased"
                                else "oneTimeSubscription").toList),
                         ("checkoutUrl",
                          match session.url with
                          | some u => .str u
                          | none => .null),
                         ("paymentReason",
                          .str o.paymentReason.toList)])])))]])]
      | .error err => JVal.obj
          [("content", .arr
            [.obj [("type", .str "text".toList),
                   ("text", .str (stringify (.obj
                     [("status", .str "error".toList),
                      ("error", .str err.message.toList)])))]]),
           ("isError", .bool true)]) := by
  cases hc : g.createSession with
  | ok s =>
      constructor <;>
        simp [paidCallback, h1, h2, hc, createCheckoutSession]
  | error err =>
      constructor <;>
        simp [paidCallback, h1, h2, hc, createCheckoutSession]

/-- C2 witness: the concrete unentitled oracle with a successful checkout
creation never calls the callback and returns the `payment_required`
payload built from the created session. -/
theorem paid_unentitled_no_callback_witness :
    oracleUnentitled.resolveCustomer = .ok "cus_1"
  ∧ oracleUnentitled.entitlement = .ok false
  ∧ ((paidCallback paidOptsA "add" "price_1" "srv" "1.0.0" true none []
      {} oracleUnentitled (.ok .null) 0 5 0).cbCalls = 0
  ∧ (paidCallback paidOptsA "add" "price_1" "srv" "1.0.0" true none []
      {} oracleUnentitled (.ok .null) 0 5 0).outcome
      = .ok (match oracleUnentitled.createSession with
      | .ok session => JVal.obj
          [("content", .arr
            [.obj [("type", .str "text".toList),
                   ("text", .str (stringify (.obj
                     [("status", .str "payment_required".toList),
                      ("data", .obj
                        [("paymentType",
                          .str (if paidOptsA.meterEvent.isSome then
                                "usageBased"
                                else "oneTimeSubscription").toList),
                         ("checkoutUrl",
                          match session.url with
                          | some u => .str u
                          | none => .null),
                         ("paymentReason",
                          .str paidOptsA.paymentReason.toList)])])))]])]
      | .error err => JVal.obj
          [("content", .arr
            [.obj [("type", .str "text".toList),
                   ("text", .str (stringify (.obj
                     [("status", .str "error".toList),
                      ("error", .str err.message.toList)])))]]),
           ("isError", .bool true)])) :=
  ⟨rfl, rfl,
   paid_unentitled_no_callback paidOptsA "add" "price_1" "srv" "1.0.0" true
     none [] {} oracleUnentitled (.ok .null) 0 5 0 "cus_1" rfl rfl⟩

/-- C3: every single invocation attempt constructs and queues exactly one
event when telemetry is enabled and zero when it is disabled — across
gateway failure, not-entitled, checkout-creation failure, metering failure,
tool failure and success paths of the gated wrapper, and across success and
failure of the free wrapper; a passthrough-registered tool queues none. -/
theorem exactly_one_event_per_attempt (o : PaidOptions) (fo : FreeOptions)
    (tn pid sn sv tn2 : String) (enabled : Bool)
    (cv cv2 : Option ClientVersion) (args args2 : Obj)
    (extra extra2 : Extra) (g : PaidOracles) (cb cb2 : Except Err JVal)
    (ts te ts2 te2 : ℚ) (n n2 : Int) :
    (paidCallback o tn pid sn sv enabled cv args extra g cb ts te
      n).events.length = (if enabled then 1 else 0)
  ∧ (wrappedCallback fo tn2 enabled cv2 args2 extra2 cb2 ts2 te2
      n2).events.length = (if enabled then 1 else 0)
  ∧ (invokeRegistered .original fo tn2 cv2 args2 extra2 cb2 ts2 te2
      n2).events.length = 0 := by
  refine ⟨?_, ?_, rfl⟩
  · unfold paidCallback
    cases hrc : g.resolveCustomer with
    | error err => simp [paidCatch_len]
    | ok cid =>
        cases hent : g.entitlement with
        | error err => simp [paidCatch_len]
        | ok paid =>
            cases paid with
            | false =>
                cases hc : g.createSession with
                | ok s =>
                    cases enabled <;> simp [createCheckoutSession, hc]
                | error err =>
                    cases enabled <;> simp [createCheckoutSession, hc]
            | true => simp [paidProceed_len]
  · cases cb2 with
    | ok r => cases enabled <;> simp [wrappedCallback]
    | error e => cases enabled <;> simp [wrappedCallback]

/-- C10: with no analytics API key, telemetry is disabled but the gated
callback still runs the full payment gate — the same platform calls in the
same order, the same outcome (including the unentitled short-circuit) and
the same number of callback invocations as with telemetry enabled — while
queueing zero events. -/
theorem paid_gate_runs_without_apiKey (o : PaidOptions)
    (tn pid sn sv : String) (cv : Option ClientVersion) (args : Obj)
    (extra : Extra) (g : PaidOracles) (cb : Except Err JVal) (ts te : ℚ)
    (n : Int) (cf : Bool) :
    paidRegistrationEnabled none cf = false
  ∧ (paidCallback o tn pid sn sv false cv args extra g cb ts te n).outcome
      = (paidCallback o tn pid sn sv true cv args extra g cb ts te
          n).outcome
  ∧ (paidCallback o tn pid sn sv false cv args extra g cb ts te n).cbCalls
      = (paidCallback o tn pid sn sv true cv args extra g cb ts te
          n).cbCalls
  ∧ (paidCallback o tn pid sn sv false cv args extra g cb ts te
      n).gateCalls
      = (paidCallback o tn pid sn sv true cv args extra g cb ts te
          n).gateCalls
  ∧ (paidCallback o tn pid sn sv false cv args extra g cb ts te n).events
      = [] := by
  refine ⟨rfl, ?_⟩
  unfold paidCallback
  cases hrc : g.resolveCustomer with
  | error err => simp [paidCatch_shape, paidCatch_disabled]
  | ok cid =>
      cases hent : g.entitlement with
      | error err => simp [paidCatch_shape, paidCatch_disabled]
      | ok paid =>
          cases paid with
          | false =>
              cases hc : g.createSession with
              | ok s => simp [createCheckoutSession, hc]
              | error err => simp [createCheckoutSession, hc]
          | true => simp [paidProceed_indep]

end MCPA
